import Mathlib

/-!
Verification development for the smart pesticide sprinkler system.

The server (`main.py`) fuses a stabilized plant-disease severity label with
soil-moisture / humidity / temperature readings to decide whether and how long
to run a sprayer motor.  The embedding below translates the decision pipeline:
the configuration constants, the temporal stabilizer (`get_stable_prediction`
over the bounded `prediction_history` deque), the environmental gates
(`all_conditions_ok` in the `/process` handler and `conditions_met` in
`process_frames_loop`), the actuation steps of `run_motor_spray`, the
`/process` request handler `handle_moisture_data`, the one-slot frame deque,
and the Pi client's motor-on decision (`pi_client.py`).

Numbers are modelled as exact rationals (the Python floats involved are all
small decimal literals), timestamps as naturals, and Python `None` as
`Option.none`.  All functions are total: the `is not None` short-circuit
guards of the source become explicit `Option` matches, so no evaluation can
raise.
-/

/-- `severity_classes` from main.py line 45. -/
def severity_classes : List String := ["healthy", "high", "low", "medium"]

/-- `MIN_CONFIDENCE` from main.py line 54: minimum smoothed confidence for a
severity result. -/
def MIN_CONFIDENCE : ℚ := 35

/-- `HISTORY_SIZE` from main.py line 88: capacity of the prediction deque. -/
def HISTORY_SIZE : ℕ := 20

/-- `SMOOTHING_ALPHA` from main.py line 89. -/
def SMOOTHING_ALPHA : ℚ := 1 / 10

/-- `HYSTERESIS` from main.py line 90: frames to wait before dropping to
"No Plant Detected". -/
def HYSTERESIS : ℕ := 5

/-- `MOISTURE_LIMIT` from main.py line 74. -/
def MOISTURE_LIMIT : ℚ := 40

/-- `HUMIDITY_LIMIT` from main.py line 75. -/
def HUMIDITY_LIMIT : ℚ := 70

/-- `TEMP_LIMIT` from main.py line 76. -/
def TEMP_LIMIT : ℚ := 30

/-- `spray_durations` from main.py lines 67-71: motor spray seconds per
severity label. -/
def spray_durations (severity : String) : Option ℕ :=
  if severity = "low" then some 2
  else if severity = "medium" then some 3
  else if severity = "high" then some 5
  else none

/-- The moisture clause of both gates: `latest_moisture < MOISTURE_LIMIT`
(main.py lines 334 and 394). -/
def moisture_ok (m : ℚ) : Bool := decide (m < MOISTURE_LIMIT)

/-- The humidity clause of both gates:
`latest_humidity is not None and latest_humidity < HUMIDITY_LIMIT`
(main.py lines 335 and 395); `None` short-circuits to `False`. -/
def humidity_ok : Option ℚ → Bool
  | some h => decide (h < HUMIDITY_LIMIT)
  | none => false

/-- The temperature clause of both gates:
`latest_temperature is not None and latest_temperature < TEMP_LIMIT`
(main.py lines 336 and 396); `None` short-circuits to `False`. -/
def temperature_ok : Option ℚ → Bool
  | some t => decide (t < TEMP_LIMIT)
  | none => false

/-- `conditions_met` of `process_frames_loop` (main.py lines 332-338): the
local auto-trigger gate — `detected_severity in spray_durations`, the three
environment clauses, and `not motor_running`. -/
def conditions_met (detected_severity : String) (moisture : ℚ)
    (humidity temperature : Option ℚ) (motor_running : Bool) : Bool :=
  (spray_durations detected_severity).isSome
    && moisture_ok moisture
    && humidity_ok humidity
    && temperature_ok temperature
    && !motor_running

/-- `plant_label = latest_plant.get("label", "").split(" ")[0]` (main.py
line 380): the first space-delimited word of the stable label. -/
def first_word (s : String) : String :=
  String.mk (s.toList.takeWhile (fun c => c ≠ ' '))

/-- `all_conditions_ok` of `handle_moisture_data` (main.py lines 391-397):
the `/process` gate — `plant_label in spray_durations`,
`plant_label != "No Plant Detected"`, and the three environment clauses.
It does not mention `motor_running`. -/
def all_conditions_ok (plant_label : String) (moisture : ℚ)
    (humidity temperature : Option ℚ) : Bool :=
  (spray_durations plant_label).isSome
    && (plant_label != "No Plant Detected")
    && moisture_ok moisture
    && humidity_ok humidity
    && temperature_ok temperature

/-! ## Temporal stabilizer -/

/-- Exponential moving average of the confidences in `prediction_history`,
main.py lines 151-156: `smoothed = conf` for the first entry, then
`smoothed = SMOOTHING_ALPHA * conf + (1 - SMOOTHING_ALPHA) * smoothed`.
An empty history leaves the initial `0.0`. -/
def smoothedOf (hist : List (String × ℚ)) : ℚ :=
  match hist with
  | [] => 0
  | (_, c) :: rest =>
    rest.foldl (fun s p => SMOOTHING_ALPHA * p.2 + (1 - SMOOTHING_ALPHA) * s) c

/-- Most common non-sentinel label in the history, main.py lines 159-163:
`valid_labels = [lbl for lbl, _ in prediction_history if lbl != "No Plant Detected"]`
then `max(set(valid_labels), key=valid_labels.count)` (falling back to the
sentinel when no valid label exists).  Python iterates an unordered set; the
tie-break here is first-occurrence order, one admissible linearization of
that unspecified order (ties never matter to any theorem below). -/
def most_common (hist : List (String × ℚ)) : String :=
  let valid_labels := hist.filterMap
    (fun p => if p.1 != "No Plant Detected" then some p.1 else none)
  match valid_labels with
  | [] => "No Plant Detected"
  | c :: rest =>
    rest.foldl
      (fun best cand =>
        if valid_labels.count best < valid_labels.count cand then cand else best)
      c

/-- The stabilizer's cross-call state: globals `plant_currently_visible` and
`frames_without_plant` (main.py lines 92-93). -/
structure StabState where
  plant_currently_visible : Bool
  frames_without_plant : ℕ
  deriving DecidableEq, Repr

/-- `get_stable_prediction` (main.py lines 140-177) as a function of the
current history and the stabilizer state, returning the
`(label, color, smoothed)` triple together with the updated state.  Colors
are the BGR triples of the source: `(0, 255, 0)` green, `(0, 0, 255)` red. -/
def get_stable_prediction (hist : List (String × ℚ)) (st : StabState) :
    (String × (ℕ × ℕ × ℕ) × ℚ) × StabState :=
  if hist = [] then (("No Plant Detected", (0, 0, 255), 0), st)
  else
    let smoothed := smoothedOf hist
    let mc := most_common hist
    if MIN_CONFIDENCE ≤ smoothed then
      ((mc, (0, 255, 0), smoothed), ⟨true, 0⟩)
    else
      let cnt := st.frames_without_plant + 1
      if st.plant_currently_visible = true ∧ cnt < HYSTERESIS then
        ((mc, (0, 255, 0), smoothed), ⟨st.plant_currently_visible, cnt⟩)
      else
        (("No Plant Detected", (0, 0, 255), smoothed), ⟨false, 0⟩)

/-- Iterate `get_stable_prediction` over a sequence of history snapshots,
collecting the emitted stable labels (one call per processed frame, main.py
line 312). -/
def run_stabilizer : List (List (String × ℚ)) → StabState →
    List String × StabState
  | [], st => ([], st)
  | h :: rest, st =>
    let r := get_stable_prediction h st
    let rr := run_stabilizer rest r.2
    (r.1.1 :: rr.1, rr.2)

/-- `prediction_history.append` on the `deque(maxlen=HISTORY_SIZE)`
(main.py line 91): append on the right, dropping from the left once the
capacity is reached. -/
def push_history (h : List (String × ℚ)) (x : String × ℚ) :
    List (String × ℚ) :=
  if h.length < HISTORY_SIZE then h ++ [x]
  else (h.drop (h.length - (HISTORY_SIZE - 1))) ++ [x]

/-- The content of `prediction_history` after appending the given samples,
oldest first, starting from the empty deque. -/
def feed_history (samples : List (String × ℚ)) : List (String × ℚ) :=
  samples.foldl push_history []

/-- The smoothed confidence `get_stable_prediction` emits right after the
given samples have been appended to `prediction_history`. -/
def emitted_smoothed (samples : List (String × ℚ)) : ℚ :=
  smoothedOf (feed_history samples)

/-! ## Actuation: `run_motor_spray` -/

/-- The globals `run_motor_spray` touches (main.py lines 83-85 and 120-126)
plus the activity log (message, level pairs). -/
structure MotorState where
  motor_running : Bool
  spray_in_progress : Bool
  freeze_active : Bool
  spray_started_at : ℕ
  spray_lasts_for : ℕ
  manual_spray_prompt : String
  log : List (String × String)
  deriving DecidableEq, Repr

/-- The entry half of `run_motor_spray` (main.py lines 188-198): a severity
outside `spray_durations` is a no-op; otherwise record the duration and start
time, mark the motor running, and log the start event.  `now` stands for
`time.time()`. -/
def run_motor_spray_start (severity_level : String) (now : ℕ)
    (s : MotorState) : MotorState :=
  match spray_durations severity_level with
  | none => s
  | some duration =>
    { s with
      spray_lasts_for := duration
      spray_started_at := now
      motor_running := true
      log := s.log ++
        [("Motor ON for " ++ toString duration ++ "s — "
            ++ severity_level.toUpper ++ " severity", "success")] }

/-- The exit half of `run_motor_spray` (main.py lines 203-208), reached after
`time.sleep(duration)`: clear the motor and transient UI state and log
completion. -/
def run_motor_spray_finish (s : MotorState) : MotorState :=
  { s with
    motor_running := false
    spray_in_progress := false
    freeze_active := false
    manual_spray_prompt := ""
    log := s.log ++
      [("Motor OFF — finished " ++ toString s.spray_lasts_for ++ "s spray",
        "info")] }

/-! ## The `/process` handler -/

/-- The server globals read or written by `handle_moisture_data`
(main.py lines 83, 99-111, 114). -/
structure ServerState where
  current_motor_command : String
  command_duration : ℕ
  latest_moisture : ℚ
  latest_humidity : Option ℚ
  latest_temperature : Option ℚ
  latest_plant_label : String
  force_spray_now : Bool
  motor_running : Bool
  log : List (String × String)
  deriving DecidableEq, Repr

/-- `handle_moisture_data` (main.py lines 368-407), the `/process` route:
store the posted moisture (`data.get('moisture', 0.0)`), then either consume
the force flag (reply RUN for 3 s and clear the flag), or evaluate
`all_conditions_ok` and reply RUN with the table duration or STOP with 0.
The response pairs `current_motor_command` with `command_duration` exactly as
assigned. -/
def handle_moisture_data (moisture_field : Option ℚ) (s : ServerState) :
    (String × ℕ) × ServerState :=
  let m := moisture_field.getD 0
  let s1 : ServerState := { s with latest_moisture := m }
  let plant_label := first_word s1.latest_plant_label
  if s1.force_spray_now then
    (("RUN", 3),
      { s1 with
        current_motor_command := "RUN"
        command_duration := 3
        force_spray_now := false
        log := s1.log ++ [("Manual override — Force spray for 3s", "warning")] })
  else if all_conditions_ok plant_label m s1.latest_humidity
      s1.latest_temperature then
    let d := (spray_durations plant_label).getD 0
    (("RUN", d),
      { s1 with
        current_motor_command := "RUN"
        command_duration := d
        log := s1.log ++
          [("Auto spray: " ++ plant_label ++ ", " ++ toString d ++ "s",
            "success")] })
  else
    (("STOP", 0), { s1 with current_motor_command := "STOP", command_duration := 0 })

/-- The Pi client's actuation predicate (pi_client.py line 128):
`if command == "RUN" and run_for > 0: motor.on()`. -/
def pi_motor_on (command : String) (run_for : ℕ) : Bool :=
  (command == "RUN") && decide (0 < run_for)

/-! ## Latest-value channel (`deque(maxlen=1)`) -/

/-- `raw_frame_queue.append` on the `deque(maxlen=1)` (main.py lines 117 and
1254): appending to a full one-slot deque drops the held item, so the slot
always holds the newest item; the producer never waits. -/
def frame_put {α : Type} (_slot : Option α) (x : α) : Option α := some x

/-- The consumer side (main.py lines 279-283): `if not raw_frame_queue:`
skip, `else frame = raw_frame_queue.popleft()` — return the held item (or
`none` for empty) together with the emptied slot, without waiting. -/
def frame_try_take {α : Type} (slot : Option α) : Option α × Option α :=
  match slot with
  | some x => (some x, none)
  | none => (none, none)

/-! ## Concurrency model for the auto-trigger race -/

/-- Thread-level state of the local auto-spray machinery:
`motor_running` (main.py line 83), `pending` counts threads created by
`threading.Thread(target=run_motor_spray).start()` (main.py lines 340-341)
whose body has not begun, and `active` counts threads inside the
`motor_running = True … time.sleep … motor_running = False` span of
`run_motor_spray` (main.py lines 194-203). -/
structure SprayThreads where
  motor_running : Bool
  pending : ℕ
  active : ℕ
  deriving DecidableEq, Repr

/-- Interleaved small-step semantics of the auto-trigger path, for a fixed
environment snapshot.  `trigger` is one `process_frames_loop` iteration
passing the `conditions_met` check and spawning a spray thread (main.py
lines 339-341); `begin_run` is a spawned thread reaching
`motor_running = True` (main.py line 194); `finish_run` is a running thread
reaching `motor_running = False` after its sleep (main.py line 203).  The
spawned thread sets `motor_running` only after it is scheduled, so `trigger`
does not change it. -/
inductive SprayStep (label : String) (moisture : ℚ)
    (humidity temperature : Option ℚ) : SprayThreads → SprayThreads → Prop
  | trigger (s : SprayThreads) :
      conditions_met label moisture humidity temperature s.motor_running = true →
      SprayStep label moisture humidity temperature s
        ⟨s.motor_running, s.pending + 1, s.active⟩
  | begin_run (s : SprayThreads) : 0 < s.pending →
      SprayStep label moisture humidity temperature s
        ⟨true, s.pending - 1, s.active + 1⟩
  | finish_run (s : SprayThreads) : 0 < s.active →
      SprayStep label moisture humidity temperature s
        ⟨false, s.pending, s.active - 1⟩

/-- Modelled from the spec (§5, §9): the same trigger with the
check-then-act made atomic — "only mark active if currently idle, done as one
indivisible step".  The `conditions_met` check and the `motor_running := true`
marking of the new run happen in a single step; thread start-up lag
disappears. -/
structure AtomicSpray where
  motor_running : Bool
  active : ℕ
  deriving DecidableEq, Repr

/-- Modelled from the spec (§5, §9): atomic-trigger step relation.  `trigger`
checks `conditions_met` (whose last clause requires `motor_running = false`)
and in the same step marks the motor running with one more active run;
`finish_run` is unchanged from the code. -/
inductive AtomicStep (label : String) (moisture : ℚ)
    (humidity temperature : Option ℚ) : AtomicSpray → AtomicSpray → Prop
  | trigger (s : AtomicSpray) :
      conditions_met label moisture humidity temperature s.motor_running = true →
      AtomicStep label moisture humidity temperature s ⟨true, s.active + 1⟩
  | finish_run (s : AtomicSpray) : 0 < s.active →
      AtomicStep label moisture humidity temperature s ⟨false, s.active - 1⟩

/-! ## Helper lemmas -/

lemma spray_durations_eq_some (lbl : String) (d : ℕ)
    (h : spray_durations lbl = some d) :
    (lbl = "low" ∧ d = 2) ∨ (lbl = "medium" ∧ d = 3) ∨
      (lbl = "high" ∧ d = 5) := by
  unfold spray_durations at h
  split_ifs at h with h1 h2 h3 <;> simp_all

lemma all_conditions_ok_isSome (lbl : String) (m : ℚ)
    (hu te : Option ℚ) (h : all_conditions_ok lbl m hu te = true) :
    (spray_durations lbl).isSome = true := by
  simp only [all_conditions_ok, Bool.and_eq_true] at h
  exact h.1.1.1.1

lemma conditions_met_isSome (lbl : String) (m : ℚ) (hu te : Option ℚ)
    (mr : Bool) (h : conditions_met lbl m hu te mr = true) :
    (spray_durations lbl).isSome = true := by
  simp only [conditions_met, Bool.and_eq_true] at h
  exact h.1.1.1.1

lemma conditions_met_motor_false (lbl : String) (m : ℚ) (hu te : Option ℚ)
    (mr : Bool) (h : conditions_met lbl m hu te mr = true) : mr = false := by
  simp only [conditions_met, Bool.and_eq_true, Bool.not_eq_true'] at h
  exact h.2

lemma all_conditions_ok_none (lbl : String) (m : ℚ) (hu te : Option ℚ)
    (h : hu = none ∨ te = none) : all_conditions_ok lbl m hu te = false := by
  rcases h with h | h <;> subst h <;>
    simp [all_conditions_ok, humidity_ok, temperature_ok]

lemma conditions_met_none (lbl : String) (m : ℚ) (hu te : Option ℚ)
    (mr : Bool) (h : hu = none ∨ te = none) :
    conditions_met lbl m hu te mr = false := by
  rcases h with h | h <;> subst h <;>
    simp [conditions_met, humidity_ok, temperature_ok]

lemma push_history_of_lt (h : List (String × ℚ)) (x : String × ℚ)
    (hl : h.length < HISTORY_SIZE) : push_history h x = h ++ [x] := by
  simp [push_history, hl]

lemma feed_history_append (l : List (String × ℚ)) (x : String × ℚ) :
    feed_history (l ++ [x]) = push_history (feed_history l) x := by
  simp [feed_history, List.foldl_append]

lemma feed_history_eq (l : List (String × ℚ)) (hl : l.length ≤ HISTORY_SIZE) :
    feed_history l = l := by
  induction l using List.reverseRecOn with
  | nil => rfl
  | append_singleton ys y ih =>
    have hys : ys.length < HISTORY_SIZE := by
      simp only [List.length_append, List.length_singleton] at hl
      omega
    rw [feed_history_append, ih (le_of_lt hys), push_history_of_lt ys y hys]

lemma smoothedOf_append (c : String × ℚ) (rest : List (String × ℚ))
    (x : String × ℚ) :
    smoothedOf ((c :: rest) ++ [x]) =
      SMOOTHING_ALPHA * x.2 + (1 - SMOOTHING_ALPHA) * smoothedOf (c :: rest) := by
  obtain ⟨lb, cf⟩ := c
  simp [smoothedOf, List.foldl_append]

lemma get_stable_below (h : List (String × ℚ)) (st : StabState)
    (hne : h ≠ []) (hsm : smoothedOf h < MIN_CONFIDENCE)
    (hv : st.plant_currently_visible = true)
    (hcnt : st.frames_without_plant + 1 < HYSTERESIS) :
    get_stable_prediction h st =
      ((most_common h, (0, 255, 0), smoothedOf h),
        ⟨st.plant_currently_visible, st.frames_without_plant + 1⟩) := by
  simp [get_stable_prediction, hne, not_le.mpr hsm, hv, hcnt]

lemma get_stable_flip (h : List (String × ℚ)) (st : StabState)
    (hne : h ≠ []) (hsm : smoothedOf h < MIN_CONFIDENCE)
    (hcnt : ¬(st.plant_currently_visible = true ∧
      st.frames_without_plant + 1 < HYSTERESIS)) :
    get_stable_prediction h st =
      (("No Plant Detected", (0, 0, 255), smoothedOf h), ⟨false, 0⟩) := by
  simp only [get_stable_prediction, if_neg hne, if_neg (not_le.mpr hsm)]
  rw [if_neg hcnt]

lemma run_stab_append (l1 l2 : List (List (String × ℚ))) (st : StabState) :
    run_stabilizer (l1 ++ l2) st =
      ((run_stabilizer l1 st).1 ++ (run_stabilizer l2 (run_stabilizer l1 st).2).1,
        (run_stabilizer l2 (run_stabilizer l1 st).2).2) := by
  induction l1 generalizing st with
  | nil => simp [run_stabilizer]
  | cons h t ih => simp [run_stabilizer, ih]

lemma run_stab_below (hists : List (List (String × ℚ))) (m : String)
    (st : StabState) (hv : st.plant_currently_visible = true)
    (hall : ∀ h ∈ hists,
      h ≠ [] ∧ smoothedOf h < MIN_CONFIDENCE ∧ most_common h = m)
    (hlen : st.frames_without_plant + hists.length < HYSTERESIS) :
    run_stabilizer hists st =
      (List.replicate hists.length m,
        ⟨true, st.frames_without_plant + hists.length⟩) := by
  induction hists generalizing st with
  | nil =>
    obtain ⟨v, c⟩ := st
    simp only [StabState.plant_currently_visible] at hv
    subst hv
    simp [run_stabilizer]
  | cons h t ih =>
    obtain ⟨hne, hsm, hmc⟩ := hall h (List.mem_cons_self h t)
    have hc1 : st.frames_without_plant + 1 < HYSTERESIS := by
      simp only [List.length_cons] at hlen
      omega
    have hstep := get_stable_below h st hne hsm hv hc1
    have ihr := ih ⟨true, st.frames_without_plant + 1⟩ rfl
      (fun h hm => hall h (List.mem_cons_of_mem _ hm))
      (by simp only [List.length_cons] at hlen; simpa using by omega)
    simp only [run_stabilizer, hstep, hv, ihr, hmc, List.length_cons,
      List.replicate_succ, Prod.mk.injEq, StabState.mk.injEq, true_and]
    omega

lemma atomic_inv (label : String) (moisture : ℚ)
    (humidity temperature : Option ℚ) (s : AtomicSpray)
    (h : Relation.ReflTransGen (AtomicStep label moisture humidity temperature)
      ⟨false, 0⟩ s) :
    (s.motor_running = false → s.active = 0) ∧ s.active ≤ 1 := by
  induction h with
  | refl => exact ⟨fun _ => rfl, Nat.zero_le 1⟩
  | tail _ hstep ih =>
    cases hstep with
    | trigger hc =>
      have hm := conditions_met_motor_false _ _ _ _ _ hc
      have ha := ih.1 hm
      refine ⟨fun hfalse => by simp at hfalse, ?_⟩
      dsimp only
      omega
    | finish_run ha =>
      have h1 := ih.2
      refine ⟨fun _ => ?_, ?_⟩ <;> (dsimp only; omega)

/-! ## Claims -/

/-- C1 (amended): the `/process` handler `handle_moisture_data` never reads
`motor_running`, so its response is the same whatever the motor is doing;
a poll arriving while the motor runs gets the ordinary force/gate decision,
not necessarily STOP. -/
theorem C1_response_independent_of_motor (s : ServerState) (m : Option ℚ)
    (b1 b2 : Bool) :
    (handle_moisture_data m { s with motor_running := b1 }).1 =
      (handle_moisture_data m { s with motor_running := b2 }).1 := by
  cases hf : s.force_spray_now with
  | true => simp [handle_moisture_data, hf]
  | false =>
    cases hg : all_conditions_ok (first_word s.latest_plant_label) (m.getD 0)
        s.latest_humidity s.latest_temperature with
    | true => simp [handle_moisture_data, hf, hg]
    | false => simp [handle_moisture_data, hf, hg]

/-- C1 counterexample: a state with the motor running (`motor_running = true`),
no force request, stable label "high", humidity 50 and temperature 22 on
record; the poll posts moisture 35 and receives ("RUN", 5), not ("STOP", 0) —
refuting "a remote poll while the actuator is active returns STOP/0". -/
theorem C1_counterexample :
    (ServerState.mk "STOP" 0 0 (some 50) (some 22) "high (90.0%)" false true
        []).motor_running = true ∧
    (handle_moisture_data (some 35)
        (ServerState.mk "STOP" 0 0 (some 50) (some 22) "high (90.0%)" false true
          [])).1 = ("RUN", 5) ∧
    (handle_moisture_data (some 35)
        (ServerState.mk "STOP" 0 0 (some 50) (some 22) "high (90.0%)" false true
          [])).1 ≠ ("STOP", 0) := by
  refine ⟨rfl, ?_, ?_⟩ <;> decide

/-- C2 (amended): under the atomic-trigger semantics of the spec (§5, §9),
where checking `conditions_met` and marking the motor running happen in one
indivisible step, every state reachable from the idle initial state has at
most one active actuation run. -/
theorem C2_atomic_at_most_one_active (label : String) (moisture : ℚ)
    (humidity temperature : Option ℚ) (s : AtomicSpray)
    (h : Relation.ReflTransGen (AtomicStep label moisture humidity temperature)
      ⟨false, 0⟩ s) :
    s.active ≤ 1 :=
  (atomic_inv label moisture humidity temperature s h).2

theorem C2_witness : (AtomicSpray.mk true 1).active ≤ 1 :=
  C2_atomic_at_most_one_active "high" 35 (some 50) (some 22) ⟨true, 1⟩
    (Relation.ReflTransGen.single (AtomicStep.trigger ⟨false, 0⟩ (by decide)))

/-- C2 counterexample: in the code's interleaved semantics, where the spawned
`run_motor_spray` thread sets `motor_running` only after the
`conditions_met` check that spawned it, a state with two concurrently active
spray runs is reachable from idle: two frame-loop iterations both pass the
check (motor still marked idle) and both spawned threads then start. -/
theorem C2_counterexample :
    Relation.ReflTransGen (SprayStep "high" 35 (some 50) (some 22))
      ⟨false, 0, 0⟩ ⟨true, 0, 2⟩ ∧
    1 < (SprayThreads.mk true 0 2).active := by
  refine ⟨?_, by decide⟩
  have t1 : SprayStep "high" 35 (some 50) (some 22) ⟨false, 0, 0⟩
      ⟨false, 1, 0⟩ := SprayStep.trigger ⟨false, 0, 0⟩ (by decide)
  have t2 : SprayStep "high" 35 (some 50) (some 22) ⟨false, 1, 0⟩
      ⟨false, 2, 0⟩ := SprayStep.trigger ⟨false, 1, 0⟩ (by decide)
  have t3 : SprayStep "high" 35 (some 50) (some 22) ⟨false, 2, 0⟩
      ⟨true, 1, 1⟩ := SprayStep.begin_run ⟨false, 2, 0⟩ (by decide)
  have t4 : SprayStep "high" 35 (some 50) (some 22) ⟨true, 1, 1⟩
      ⟨true, 0, 2⟩ := SprayStep.begin_run ⟨true, 1, 1⟩ (by decide)
  exact Relation.ReflTransGen.tail
    (Relation.ReflTransGen.tail
      (Relation.ReflTransGen.tail (Relation.ReflTransGen.single t1) t2) t3) t4

/-- C3: with humidity or temperature absent the gate fails closed: the
non-force `/process` path answers ("STOP", 0), and the local auto-trigger
gate `conditions_met` is false for every severity, moisture and motor flag.
Both functions are total, so no evaluation raises. -/
theorem C3_gate_fails_closed (s : ServerState) (m : Option ℚ)
    (hf : s.force_spray_now = false)
    (h : s.latest_humidity = none ∨ s.latest_temperature = none) :
    (handle_moisture_data m s).1 = ("STOP", 0) ∧
    (handle_moisture_data m s).2.current_motor_command = "STOP" ∧
    ∀ (lbl : String) (mo : ℚ) (mr : Bool),
      conditions_met lbl mo s.latest_humidity s.latest_temperature mr = false := by
  have hg := all_conditions_ok_none (first_word s.latest_plant_label) (m.getD 0)
    s.latest_humidity s.latest_temperature h
  refine ⟨?_, ?_, fun lbl mo mr => conditions_met_none lbl mo _ _ mr h⟩ <;>
    simp [handle_moisture_data, hf, hg]

theorem C3_witness :
    (handle_moisture_data (some 35)
        (ServerState.mk "STOP" 0 0 none (some 22) "high (90.0%)" false false
          [])).1 = ("STOP", 0) ∧
    conditions_met "high" 35 none (some 22) false = false :=
  ⟨(C3_gate_fails_closed
      (ServerState.mk "STOP" 0 0 none (some 22) "high (90.0%)" false false [])
      (some 35) rfl (Or.inl rfl)).1,
   (C3_gate_fails_closed
      (ServerState.mk "STOP" 0 0 none (some 22) "high (90.0%)" false false [])
      (some 35) rfl (Or.inl rfl)).2.2 "high" 35 false⟩

/-- C4: a set force flag makes `/process` reply ("RUN", 3) whatever the gate
would say, the flag is cleared in the resulting state, and a second call on
that state takes the ordinary gate-evaluated path. -/
theorem C4_force_consumed_once (s : ServerState) (m m2 : Option ℚ)
    (hf : s.force_spray_now = true) :
    (handle_moisture_data m s).1 = ("RUN", 3) ∧
    (handle_moisture_data m s).2.force_spray_now = false ∧
    (handle_moisture_data m2 (handle_moisture_data m s).2).1 =
      (if all_conditions_ok (first_word s.latest_plant_label) (m2.getD 0)
          s.latest_humidity s.latest_temperature = true
       then ("RUN", (spray_durations (first_word s.latest_plant_label)).getD 0)
       else ("STOP", 0)) := by
  refine ⟨?_, ?_, ?_⟩
  · simp [handle_moisture_data, hf]
  · simp [handle_moisture_data, hf]
  · cases hg : all_conditions_ok (first_word s.latest_plant_label) (m2.getD 0)
        s.latest_humidity s.latest_temperature with
    | true => simp [handle_moisture_data, hf, hg]
    | false => simp [handle_moisture_data, hf, hg]

/-- C4 witness: stable label "healthy" (gate denies), force flag set; first
call replies ("RUN", 3) and clears the flag; the second call replies
("STOP", 0). -/
theorem C4_witness :
    all_conditions_ok "healthy" 35 (some 50) (some 22) = false ∧
    (handle_moisture_data (some 35)
        (ServerState.mk "STOP" 0 0 (some 50) (some 22) "healthy (90.0%)" true
          false [])).1 = ("RUN", 3) ∧
    (handle_moisture_data (some 35)
        (ServerState.mk "STOP" 0 0 (some 50) (some 22) "healthy (90.0%)" true
          false [])).2.force_spray_now = false ∧
    (handle_moisture_data (some 35)
        (handle_moisture_data (some 35)
          (ServerState.mk "STOP" 0 0 (some 50) (some 22) "healthy (90.0%)" true
            false [])).2).1 = ("STOP", 0) := by
  have h := C4_force_consumed_once
    (ServerState.mk "STOP" 0 0 (some 50) (some 22) "healthy (90.0%)" true false
      [])
    (some 35) (some 35) rfl
  exact ⟨by decide, h.1, h.2.1, h.2.2.trans (by decide)⟩

/-- C5 (amended): the emitted smoothed confidence obeys the EWMA recurrence
while the bounded history is not yet full: it equals the raw confidence for
the first sample, and `SMOOTHING_ALPHA * c + (1 - SMOOTHING_ALPHA) * previous`
for every later sample as long as at most `HISTORY_SIZE` samples have been
consumed.  Once the deque is full the oldest sample is dropped and the value
is recomputed over the last `HISTORY_SIZE` samples only, so the recurrence
can fail (see the counterexample). -/
theorem C5_ewma_recurrence :
    (∀ x : String × ℚ, emitted_smoothed [x] = x.2) ∧
    ∀ (front : List (String × ℚ)) (x : String × ℚ),
      front ≠ [] → front.length < HISTORY_SIZE →
      emitted_smoothed (front ++ [x]) =
        SMOOTHING_ALPHA * x.2 + (1 - SMOOTHING_ALPHA) * emitted_smoothed front := by
  constructor
  · intro x
    obtain ⟨lb, cf⟩ := x
    simp [emitted_smoothed, feed_history, push_history, smoothedOf,
      HISTORY_SIZE]
  · intro front x hne hlen
    obtain ⟨c, rest, rfl⟩ := List.exists_cons_of_ne_nil hne
    have h1 : emitted_smoothed ((c :: rest) ++ [x]) =
        smoothedOf ((c :: rest) ++ [x]) := by
      unfold emitted_smoothed
      rw [feed_history_eq]
      simp only [List.length_append, List.length_cons, List.length_nil] at hlen ⊢
      omega
    have h2 : emitted_smoothed (c :: rest) = smoothedOf (c :: rest) := by
      unfold emitted_smoothed
      rw [feed_history_eq (c :: rest) (le_of_lt hlen)]
    rw [h1, h2, smoothedOf_append]

/-- C5 witness: for the two-sample sequence 50 then 30 the recurrence gives
0.1 * 30 + 0.9 * 50. -/
theorem C5_witness :
    ([(("a" : String), (50 : ℚ))] ≠ [] ∧
      ([(("a" : String), (50 : ℚ))]).length < HISTORY_SIZE) ∧
    emitted_smoothed ([("a", 50)] ++ [("a", 30)]) =
      SMOOTHING_ALPHA * 30 + (1 - SMOOTHING_ALPHA) * emitted_smoothed [("a", 50)] :=
  ⟨⟨by decide, by decide⟩,
    C5_ewma_recurrence.2 [("a", 50)] ("a", 30) (by decide) (by decide)⟩

/-- C5 counterexample: feed 21 samples — confidence 100 then twenty 0s.
After 21 samples the deque holds twenty 0s and the recomputed smoothed value
is 0, but the claimed recurrence from the 20-sample value
(100 · 0.9^19) would give 100 · 0.9^20 ≠ 0.  So the recurrence fails after
more samples than the history length have been consumed. -/
theorem C5_counterexample :
    emitted_smoothed (("p", 100) :: List.replicate 20 ("p", 0)) ≠
      SMOOTHING_ALPHA * 0 + (1 - SMOOTHING_ALPHA) *
        emitted_smoothed (("p", 100) :: List.replicate 19 ("p", 0)) := by
  norm_num [emitted_smoothed, feed_history, push_history, smoothedOf,
    HISTORY_SIZE, SMOOTHING_ALPHA, List.replicate]

/-- C6: starting from a visible subject with a zeroed miss counter, a run of
fewer than `HYSTERESIS` = 5 consecutive below-threshold evaluations keeps the
stabilizer reporting the histories' majority label (and counts the misses),
while a run of exactly 5 flips the output to "No Plant Detected" and resets
the visibility flag and counter. -/
theorem C6_hysteresis (hists : List (List (String × ℚ))) (m : String)
    (hall : ∀ h ∈ hists,
      h ≠ [] ∧ smoothedOf h < MIN_CONFIDENCE ∧ most_common h = m) :
    (hists.length < HYSTERESIS →
      run_stabilizer hists ⟨true, 0⟩ =
        (List.replicate hists.length m, ⟨true, hists.length⟩)) ∧
    (hists.length = HYSTERESIS →
      run_stabilizer hists ⟨true, 0⟩ =
        (List.replicate (HYSTERESIS - 1) m ++ ["No Plant Detected"],
          ⟨false, 0⟩)) := by
  constructor
  · intro hlen
    simpa using run_stab_below hists m ⟨true, 0⟩ rfl hall (by simpa using hlen)
  · intro hlen
    have hl5 : hists.length = 5 := hlen.trans rfl
    have hsplit : hists.take 4 ++ hists.drop 4 = hists := List.take_append_drop 4 hists
    have hlen4 : (hists.take 4).length = 4 := by
      rw [List.length_take]
      omega
    have hrun4 : run_stabilizer (hists.take 4) ⟨true, 0⟩ =
        (List.replicate 4 m, ⟨true, 4⟩) := by
      have := run_stab_below (hists.take 4) m ⟨true, 0⟩ rfl
        (fun h hm => hall h (List.mem_of_mem_take hm))
        (by simp only [hlen4]; decide)
      simpa [hlen4] using this
    have hdrop : ∃ h5, hists.drop 4 = [h5] := by
      rw [← List.length_eq_one]
      rw [List.length_drop]
      omega
    obtain ⟨h5, hd5⟩ := hdrop
    have hmem5 : h5 ∈ hists := by
      have : h5 ∈ hists.drop 4 := by simp [hd5]
      exact List.mem_of_mem_drop this
    obtain ⟨hne5, hsm5, _⟩ := hall h5 hmem5
    have hflip : get_stable_prediction h5 ⟨true, 4⟩ =
        (("No Plant Detected", (0, 0, 255), smoothedOf h5), ⟨false, 0⟩) := by
      apply get_stable_flip h5 ⟨true, 4⟩ hne5 hsm5
      intro hand
      exact absurd hand.2 (by decide)
    calc run_stabilizer hists ⟨true, 0⟩
        = run_stabilizer (hists.take 4 ++ hists.drop 4) ⟨true, 0⟩ := by
          rw [hsplit]
      _ = (List.replicate (HYSTERESIS - 1) m ++ ["No Plant Detected"],
            ⟨false, 0⟩) := by
          rw [run_stab_append, hrun4, hd5]
          simp [run_stabilizer, hflip, HYSTERESIS]

/-- C6 witness: five consecutive single-entry histories with label "x" and
confidence 30 (below the 35 threshold): the first four evaluations still
report "x", the fifth reports "No Plant Detected" with the state reset. -/
theorem C6_witness :
    run_stabilizer (List.replicate 5 [(("x" : String), (30 : ℚ))]) ⟨true, 0⟩ =
      (List.replicate (HYSTERESIS - 1) "x" ++ ["No Plant Detected"],
        ⟨false, 0⟩) :=
  (C6_hysteresis (List.replicate 5 [("x", 30)]) "x" (by decide)).2 rfl

/-- C7: whenever the auto-trigger gate `conditions_met` passes,
`run_motor_spray` looks its duration up in the severity table
(low = 2 s, medium = 3 s, high = 5 s), marks the motor running for that
duration, and on completion clears the motor flag and appends the completion
log entry. -/
theorem C7_spray_duration_lifecycle (sev : String) (moisture : ℚ)
    (humidity temperature : Option ℚ) (s : MotorState) (now : ℕ)
    (hc : conditions_met sev moisture humidity temperature s.motor_running = true) :
    spray_durations "low" = some 2 ∧ spray_durations "medium" = some 3 ∧
    spray_durations "high" = some 5 ∧
    (run_motor_spray_start sev now s).motor_running = true ∧
    (run_motor_spray_start sev now s).spray_lasts_for =
      (spray_durations sev).getD 0 ∧
    (run_motor_spray_finish (run_motor_spray_start sev now s)).motor_running =
      false ∧
    (run_motor_spray_finish (run_motor_spray_start sev now s)).log =
      (run_motor_spray_start sev now s).log ++
        [("Motor OFF — finished " ++ toString ((spray_durations sev).getD 0)
            ++ "s spray", "info")] := by
  obtain ⟨d, hd⟩ := Option.isSome_iff_exists.mp (conditions_met_isSome _ _ _ _ _ hc)
  refine ⟨by decide, by decide, by decide, ?_, ?_, ?_, ?_⟩ <;>
    simp [run_motor_spray_start, run_motor_spray_finish, hd]

/-- C7 witness: the spec scenario — moisture 35, humidity 50, temperature 22,
severity "high", motor idle: the gate passes and the run lasts 5 seconds. -/
theorem C7_witness :
    spray_durations "low" = some 2 ∧ spray_durations "medium" = some 3 ∧
    spray_durations "high" = some 5 ∧
    (run_motor_spray_start "high" 0
        (MotorState.mk false false false 0 0 "" [])).motor_running = true ∧
    (run_motor_spray_start "high" 0
        (MotorState.mk false false false 0 0 "" [])).spray_lasts_for =
      (spray_durations "high").getD 0 ∧
    (run_motor_spray_finish (run_motor_spray_start "high" 0
        (MotorState.mk false false false 0 0 "" []))).motor_running = false ∧
    (run_motor_spray_finish (run_motor_spray_start "high" 0
        (MotorState.mk false false false 0 0 "" []))).log =
      (run_motor_spray_start "high" 0
          (MotorState.mk false false false 0 0 "" [])).log ++
        [("Motor OFF — finished " ++ toString ((spray_durations "high").getD 0)
            ++ "s spray", "info")] :=
  C7_spray_duration_lifecycle "high" 35 (some 50) (some 22)
    (MotorState.mk false false false 0 0 "" []) 0 (by decide)

/-- C8: the one-slot frame deque is a latest-value channel: two puts with no
intervening take leave exactly the second item, a take then returns it and
empties the slot, and a take on an empty slot reports empty; both operations
are total functions (no blocking). -/
theorem C8_latest_value_channel (α : Type) (slot : Option α) (a b : α) :
    frame_put (frame_put slot a) b = some b ∧
    frame_try_take (frame_put (frame_put slot a) b) = (some b, none) ∧
    frame_try_take (none : Option α) = (none, none) :=
  ⟨rfl, rfl, rfl⟩

/-- C9: a `/process` request whose body lacks the moisture key stores the
default 0.0 as the latest moisture, and since 0 < 40 the gate's moisture
clause accepts it — unlike the humidity and temperature clauses, which fail
closed on an absent reading. -/
theorem C9_missing_moisture_defaults_open (s : ServerState) :
    (handle_moisture_data none s).2.latest_moisture = 0 ∧
    moisture_ok ((handle_moisture_data none s).2.latest_moisture) = true ∧
    humidity_ok none = false ∧ temperature_ok none = false := by
  have hm : (handle_moisture_data none s).2.latest_moisture = 0 := by
    cases hf : s.force_spray_now with
    | true => simp [handle_moisture_data, hf]
    | false =>
      cases hg : all_conditions_ok (first_word s.latest_plant_label) 0
          s.latest_humidity s.latest_temperature with
      | true => simp [handle_moisture_data, hf, hg]
      | false => simp [handle_moisture_data, hf, hg]
  refine ⟨hm, ?_, rfl, rfl⟩
  rw [hm]
  decide

/-- C10: every `/process` response is ("RUN", 3), ("RUN", 2), ("RUN", 5) or
("STOP", 0); the command is "RUN" exactly when the duration is positive, and
the Pi client's motor-on predicate agrees with the command being "RUN". -/
theorem C10_response_shape (s : ServerState) (m : Option ℚ) :
    ((handle_moisture_data m s).1 = ("RUN", 3) ∨
      (handle_moisture_data m s).1 = ("RUN", 2) ∨
      (handle_moisture_data m s).1 = ("RUN", 5) ∨
      (handle_moisture_data m s).1 = ("STOP", 0)) ∧
    ((handle_moisture_data m s).1.1 = "RUN" ↔ 0 < (handle_moisture_data m s).1.2) ∧
    (pi_motor_on (handle_moisture_data m s).1.1 (handle_moisture_data m s).1.2 =
        true ↔ (handle_moisture_data m s).1.1 = "RUN") := by
  cases hf : s.force_spray_now with
  | true =>
    refine ⟨?_, ?_, ?_⟩ <;> simp [handle_moisture_data, hf, pi_motor_on]
  | false =>
    cases hg : all_conditions_ok (first_word s.latest_plant_label) (m.getD 0)
        s.latest_humidity s.latest_temperature with
    | false =>
      refine ⟨?_, ?_, ?_⟩ <;> simp [handle_moisture_data, hf, hg, pi_motor_on]
    | true =>
      obtain ⟨d, hd⟩ := Option.isSome_iff_exists.mp
        (all_conditions_ok_isSome _ _ _ _ hg)
      rcases spray_durations_eq_some _ _ hd with ⟨_, rfl⟩ | ⟨_, rfl⟩ | ⟨_, rfl⟩ <;>
        (refine ⟨?_, ?_, ?_⟩ <;> simp [handle_moisture_data, hf, hg, hd, pi_motor_on])
